import Mathlib

/-!
Verification of the phase_space_reconstruction repository.

Shallow embedding of the differentiable histogram estimator
(src/paper/histogram.py) and of the lattice / reconstruction model
(src/gpsr/modeling.py), over the real numbers, with theorems settling the
frozen claims about the natural-language specification.

Tensors are embedded as functions on `Fin`-index types: a torch tensor of
shape (B, N) becomes `Fin B → Fin N → ℝ`; elementwise torch operations
become pointwise operations; `torch.mean(·, dim=-2)` becomes a `Finset`
sum divided by the axis size; batched `matmul` becomes an explicit sum
over the contracted axis.  The trailing singleton axis of the `values`
argument of `marginal_pdf` (shape (B, N, 1)) exists in the source only to
drive broadcasting against the bins axis and is absorbed by the embedding.
-/

open scoped BigOperators

namespace PhaseSpaceReconstruction

/-- Embeds line 48 of src/paper/histogram.py:
`kernel_values = torch.exp(-0.5 * (residuals / sigma).pow(2))` where
`residuals = values - bins.repeat(*values.shape)` (line 47): entry
(b, n, j) is the Gaussian kernel weight of sample (b, n) against bin j. -/
noncomputable def kernel_values {B N NB : ℕ} (values : Fin B → Fin N → ℝ)
    (bins : Fin NB → ℝ) (sigma : ℝ) : Fin B → Fin N → Fin NB → ℝ :=
  fun b n j => Real.exp (-0.5 * ((values b n - bins j) / sigma) ^ 2)

/-- Embeds line 50 of src/paper/histogram.py:
`pdf = torch.mean(kernel_values, dim=-2)` — the unnormalized per-bin
density, the mean of the kernel weights over the sample axis. -/
noncomputable def pre_pdf {B N NB : ℕ} (values : Fin B → Fin N → ℝ)
    (bins : Fin NB → ℝ) (sigma : ℝ) : Fin B → Fin NB → ℝ :=
  fun b j => (∑ n, kernel_values values bins sigma b n j) / (N : ℝ)

/-- Embeds `marginal_pdf` (src/paper/histogram.py lines 7-54).  Lines 51-52:
`normalization = torch.sum(pdf, dim=-1).unsqueeze(-1) + epsilon;
pdf = pdf / normalization`.  Returns the pair (normalized pdf, raw kernel
values), as the source does on line 54. -/
noncomputable def marginal_pdf {B N NB : ℕ} (values : Fin B → Fin N → ℝ)
    (bins : Fin NB → ℝ) (sigma epsilon : ℝ) :
    (Fin B → Fin NB → ℝ) × (Fin B → Fin N → Fin NB → ℝ) :=
  (fun b j => pre_pdf values bins sigma b j /
      ((∑ i, pre_pdf values bins sigma b i) + epsilon),
   kernel_values values bins sigma)

/-- Embeds line 88 of src/paper/histogram.py:
`joint_kernel_values = torch.matmul(kernel_values1.transpose(-2, -1),
kernel_values2)` — batched matrix product of the transposed first kernel
tensor with the second, contracting the sample axis. -/
noncomputable def joint_kernel_values {B N NB : ℕ}
    (kernel_values1 kernel_values2 : Fin B → Fin N → Fin NB → ℝ) :
    Fin B → Fin NB → Fin NB → ℝ :=
  fun b i j => ∑ n, kernel_values1 b n i * kernel_values2 b n j

/-- Embeds `joint_pdf` (src/paper/histogram.py lines 57-94).  Lines 89-92:
the 2D grid of each batch is divided by its total sum plus epsilon. -/
noncomputable def joint_pdf {B N NB : ℕ}
    (kernel_values1 kernel_values2 : Fin B → Fin N → Fin NB → ℝ)
    (epsilon : ℝ) : Fin B → Fin NB → Fin NB → ℝ :=
  fun b i j => joint_kernel_values kernel_values1 kernel_values2 b i j /
    ((∑ i2, ∑ j2, joint_kernel_values kernel_values1 kernel_values2 b i2 j2)
      + epsilon)

/-- Embeds `histogram` (src/paper/histogram.py lines 97-123): the first
component of `marginal_pdf` on the unsqueezed input (line 121). -/
noncomputable def histogram {B D NB : ℕ} (x : Fin B → Fin D → ℝ)
    (bins : Fin NB → ℝ) (bandwidth epsilon : ℝ) : Fin B → Fin NB → ℝ :=
  (marginal_pdf x bins bandwidth epsilon).1

/-- Embeds `histogram2d` (src/paper/histogram.py lines 126-161).  Lines
156-159: the two marginal computations receive the supplied epsilon, but
the call `joint_pdf(kernel_values1, kernel_values2)` on line 159 passes no
epsilon, so the joint normalization uses the default 1e-10 from line 58. -/
noncomputable def histogram2d {B D NB : ℕ} (x1 x2 : Fin B → Fin D → ℝ)
    (bins : Fin NB → ℝ) (bandwidth epsilon : ℝ) :
    Fin B → Fin NB → Fin NB → ℝ :=
  joint_pdf (marginal_pdf x1 bins bandwidth epsilon).2
    (marginal_pdf x2 bins bandwidth epsilon).2 (1e-10)

/-- The unnormalized per-bin density is non-negative. -/
lemma pre_pdf_nonneg {B N NB : ℕ} (values : Fin B → Fin N → ℝ)
    (bins : Fin NB → ℝ) (sigma : ℝ) (b : Fin B) (j : Fin NB) :
    0 ≤ pre_pdf values bins sigma b j := by
  unfold pre_pdf
  apply div_nonneg
  · exact Finset.sum_nonneg fun n _ => (Real.exp_pos _).le
  · exact Nat.cast_nonneg N

/-- C1, counterexample.  The claim asserts that for every input the row
sum of the normalized pdf equals 1 within epsilon.  With the single sample
1, the single bin 0, bandwidth 0.1 and epsilon 1e-10, the unnormalized row
mass is exp(-50) ≤ 1/51, so the normalized row sum exp(-50)/(exp(-50)+1e-10)
differs from 1 by 1e-10/(exp(-50)+1e-10) > 1e-10. -/
theorem marginal_pdf_row_sum_not_within_epsilon :
    ¬ |(∑ j, (marginal_pdf (fun (_ : Fin 1) (_ : Fin 1) => (1:ℝ))
        (fun (_ : Fin 1) => (0:ℝ)) 0.1 1e-10).1 0 j) - 1| ≤ 1e-10 := by
  have harg : (-0.5 * (((1:ℝ) - 0) / 0.1) ^ 2) = -50 := by norm_num
  have h51 : (51:ℝ) ≤ Real.exp 50 := by
    have := Real.add_one_le_exp (50:ℝ); linarith
  have hE2 : Real.exp (-50) ≤ 1/51 := by
    rw [Real.exp_neg]
    rw [inv_le_comm₀ (Real.exp_pos _) (by norm_num)] at *
    · calc (1/51 : ℝ)⁻¹ = 51 := by norm_num
        _ ≤ Real.exp 50 := h51
  have hE1 : (0:ℝ) < Real.exp (-50) := Real.exp_pos _
  simp only [marginal_pdf, pre_pdf, kernel_values, Fin.sum_univ_one,
    Nat.cast_one, harg]
  rw [not_le]
  set E := Real.exp (-50) with hEdef
  have hD : (0:ℝ) < E / 1 + 1e-10 := by positivity
  have hlt : E / 1 + 1e-10 < 1 := by
    rw [div_one]; nlinarith
  have hx : E / 1 / (E / 1 + 1e-10) - 1 = -(1e-10 / (E / 1 + 1e-10)) := by
    field_simp
  rw [hx, abs_neg, abs_of_pos (by positivity)]
  rw [lt_div_iff₀ hD]
  nlinarith

/-- C1, amended.  For every values tensor of shape (B, N, 1), rank-1 bins
tensor, strictly positive bandwidth sigma and positive epsilon,
`marginal_pdf` returns a pdf of shape (B, NUM_BINS) (carried by the index
types) whose entries are all non-negative, and each batch row sums to
S/(S+epsilon) where S is the unnormalized row mass; this is within epsilon
of 1 whenever 1 - epsilon ≤ S, but not for rows whose samples all lie far
from every bin. -/
theorem marginal_pdf_row_sum_eq_mass_ratio {B N NB : ℕ}
    (values : Fin B → Fin N → ℝ) (bins : Fin NB → ℝ) (sigma epsilon : ℝ)
    (_hsigma : 0 < sigma) (heps : 0 < epsilon) (b : Fin B) :
    (∀ j, 0 ≤ (marginal_pdf values bins sigma epsilon).1 b j) ∧
    (∑ j, (marginal_pdf values bins sigma epsilon).1 b j) =
      (∑ j, pre_pdf values bins sigma b j) /
        ((∑ j, pre_pdf values bins sigma b j) + epsilon) ∧
    (1 - epsilon ≤ ∑ j, pre_pdf values bins sigma b j →
      |(∑ j, (marginal_pdf values bins sigma epsilon).1 b j) - 1| ≤ epsilon) := by
  have hS : 0 ≤ ∑ j, pre_pdf values bins sigma b j :=
    Finset.sum_nonneg fun j _ => pre_pdf_nonneg values bins sigma b j
  have hpos : 0 < (∑ j, pre_pdf values bins sigma b j) + epsilon := by linarith
  have hsum : (∑ j, (marginal_pdf values bins sigma epsilon).1 b j) =
      (∑ j, pre_pdf values bins sigma b j) /
        ((∑ j, pre_pdf values bins sigma b j) + epsilon) := by
    simp only [marginal_pdf]
    rw [← Finset.sum_div]
  refine ⟨fun j => ?_, hsum, fun hmass => ?_⟩
  · exact div_nonneg (pre_pdf_nonneg values bins sigma b j) hpos.le
  · rw [hsum]
    have h1 : (1:ℝ) ≤ (∑ j, pre_pdf values bins sigma b j) + epsilon := by
      linarith
    have hx : (∑ j, pre_pdf values bins sigma b j) /
          ((∑ j, pre_pdf values bins sigma b j) + epsilon) - 1 =
        -(epsilon / ((∑ j, pre_pdf values bins sigma b j) + epsilon)) := by
      field_simp
    rw [hx, abs_neg, abs_of_nonneg (by positivity)]
    exact div_le_self heps.le h1

/-- C1, witness for `marginal_pdf_row_sum_eq_mass_ratio` at B = N = NUM_BINS
= 1, values 0, bin 0, sigma 1, epsilon 1. -/
theorem marginal_pdf_row_sum_eq_mass_ratio_witness :
    (0:ℝ) < 1 ∧ (0:ℝ) < 1 ∧
    ((∀ j, 0 ≤ (marginal_pdf (fun (_ : Fin 1) (_ : Fin 1) => (0:ℝ))
        (fun (_ : Fin 1) => (0:ℝ)) 1 1).1 0 j) ∧
     (∑ j, (marginal_pdf (fun (_ : Fin 1) (_ : Fin 1) => (0:ℝ))
        (fun (_ : Fin 1) => (0:ℝ)) 1 1).1 0 j) =
       (∑ j, pre_pdf (fun (_ : Fin 1) (_ : Fin 1) => (0:ℝ))
          (fun (_ : Fin 1) => (0:ℝ)) 1 0 j) /
         ((∑ j, pre_pdf (fun (_ : Fin 1) (_ : Fin 1) => (0:ℝ))
            (fun (_ : Fin 1) => (0:ℝ)) 1 0 j) + 1) ∧
     (1 - 1 ≤ ∑ j, pre_pdf (fun (_ : Fin 1) (_ : Fin 1) => (0:ℝ))
        (fun (_ : Fin 1) => (0:ℝ)) 1 0 j →
       |(∑ j, (marginal_pdf (fun (_ : Fin 1) (_ : Fin 1) => (0:ℝ))
          (fun (_ : Fin 1) => (0:ℝ)) 1 1).1 0 j) - 1| ≤ 1)) :=
  ⟨by norm_num, by norm_num,
   marginal_pdf_row_sum_eq_mass_ratio (fun _ _ => 0) (fun _ => 0) 1 1
     (by norm_num) (by norm_num) 0⟩

/-- C3, counterexample.  The claim asserts that for any two kernel-weight
tensors of identical shape the joint pdf of every batch row sums to 1
within epsilon.  With both kernel tensors identically zero (B = N =
NUM_BINS = 1) and epsilon 1e-10, the joint grid is identically 0, so the
total sum is 0, at distance 1 > 1e-10 from 1. -/
theorem joint_pdf_total_not_within_epsilon :
    ¬ |(∑ i, ∑ j, joint_pdf (fun (_ : Fin 1) (_ : Fin 1) (_ : Fin 1) => (0:ℝ))
        (fun (_ : Fin 1) (_ : Fin 1) (_ : Fin 1) => (0:ℝ)) 1e-10 0 i j) - 1|
      ≤ 1e-10 := by
  simp only [joint_pdf, joint_kernel_values, Fin.sum_univ_one]
  norm_num

/-- C3, amended.  For any two kernel-weight tensors of identical shape
(B, N, NUM_BINS) and positive epsilon, `joint_pdf` computes the batched
matrix product of the transpose of the first tensor with the second
(summing over the sample axis) divided by the batch grid's total sum T
plus epsilon; the result has shape (B, NUM_BINS, NUM_BINS) (carried by the
index types) and each batch row sums over both bin axes jointly to
T/(T+epsilon), which is within epsilon of 1 whenever 1 - epsilon ≤ T, but
not when the kernel mass is degenerate (e.g. all-zero kernels). -/
theorem joint_pdf_total_eq_mass_ratio {B N NB : ℕ}
    (kernel_values1 kernel_values2 : Fin B → Fin N → Fin NB → ℝ)
    (epsilon : ℝ) (heps : 0 < epsilon) (b : Fin B) :
    (∀ i j, joint_pdf kernel_values1 kernel_values2 epsilon b i j =
        (∑ n, kernel_values1 b n i * kernel_values2 b n j) /
          ((∑ i2, ∑ j2, joint_kernel_values kernel_values1 kernel_values2 b i2 j2)
            + epsilon)) ∧
    (∑ i, ∑ j, joint_pdf kernel_values1 kernel_values2 epsilon b i j) =
      (∑ i, ∑ j, joint_kernel_values kernel_values1 kernel_values2 b i j) /
        ((∑ i, ∑ j, joint_kernel_values kernel_values1 kernel_values2 b i j)
          + epsilon) ∧
    (1 - epsilon ≤ ∑ i, ∑ j, joint_kernel_values kernel_values1 kernel_values2 b i j →
      |(∑ i, ∑ j, joint_pdf kernel_values1 kernel_values2 epsilon b i j) - 1|
        ≤ epsilon) := by
  have hsum : (∑ i, ∑ j, joint_pdf kernel_values1 kernel_values2 epsilon b i j) =
      (∑ i, ∑ j, joint_kernel_values kernel_values1 kernel_values2 b i j) /
        ((∑ i, ∑ j, joint_kernel_values kernel_values1 kernel_values2 b i j)
          + epsilon) := by
    simp only [joint_pdf, ← Finset.sum_div]
  refine ⟨fun i j => rfl, hsum, fun hmass => ?_⟩
  rw [hsum]
  have h1 : (1:ℝ) ≤
      (∑ i, ∑ j, joint_kernel_values kernel_values1 kernel_values2 b i j)
        + epsilon := by linarith
  have hpos : (0:ℝ) <
      (∑ i, ∑ j, joint_kernel_values kernel_values1 kernel_values2 b i j)
        + epsilon := by linarith
  have hx : (∑ i, ∑ j, joint_kernel_values kernel_values1 kernel_values2 b i j) /
        ((∑ i, ∑ j, joint_kernel_values kernel_values1 kernel_values2 b i j)
          + epsilon) - 1 =
      -(epsilon /
        ((∑ i, ∑ j, joint_kernel_values kernel_values1 kernel_values2 b i j)
          + epsilon)) := by
    field_simp
  rw [hx, abs_neg, abs_of_nonneg (div_nonneg heps.le hpos.le)]
  exact div_le_self heps.le h1

/-- C3, witness for `joint_pdf_total_eq_mass_ratio` at B = N = NUM_BINS = 1
with both kernel tensors identically 1 and epsilon 1. -/
theorem joint_pdf_total_eq_mass_ratio_witness :
    (0:ℝ) < 1 ∧
    ((∀ i j, joint_pdf (fun (_ : Fin 1) (_ : Fin 1) (_ : Fin 1) => (1:ℝ))
        (fun (_ : Fin 1) (_ : Fin 1) (_ : Fin 1) => (1:ℝ)) 1 0 i j =
        (∑ _n : Fin 1, (1:ℝ) * 1) /
          ((∑ i2, ∑ j2, joint_kernel_values
              (fun (_ : Fin 1) (_ : Fin 1) (_ : Fin 1) => (1:ℝ))
              (fun (_ : Fin 1) (_ : Fin 1) (_ : Fin 1) => (1:ℝ)) 0 i2 j2) + 1)) ∧
     (∑ i, ∑ j, joint_pdf (fun (_ : Fin 1) (_ : Fin 1) (_ : Fin 1) => (1:ℝ))
        (fun (_ : Fin 1) (_ : Fin 1) (_ : Fin 1) => (1:ℝ)) 1 0 i j) =
       (∑ i, ∑ j, joint_kernel_values
          (fun (_ : Fin 1) (_ : Fin 1) (_ : Fin 1) => (1:ℝ))
          (fun (_ : Fin 1) (_ : Fin 1) (_ : Fin 1) => (1:ℝ)) 0 i j) /
         ((∑ i, ∑ j, joint_kernel_values
            (fun (_ : Fin 1) (_ : Fin 1) (_ : Fin 1) => (1:ℝ))
            (fun (_ : Fin 1) (_ : Fin 1) (_ : Fin 1) => (1:ℝ)) 0 i j) + 1) ∧
     (1 - 1 ≤ ∑ i, ∑ j, joint_kernel_values
          (fun (_ : Fin 1) (_ : Fin 1) (_ : Fin 1) => (1:ℝ))
          (fun (_ : Fin 1) (_ : Fin 1) (_ : Fin 1) => (1:ℝ)) 0 i j →
       |(∑ i, ∑ j, joint_pdf (fun (_ : Fin 1) (_ : Fin 1) (_ : Fin 1) => (1:ℝ))
          (fun (_ : Fin 1) (_ : Fin 1) (_ : Fin 1) => (1:ℝ)) 1 0 i j) - 1| ≤ 1)) :=
  ⟨by norm_num,
   joint_pdf_total_eq_mass_ratio (fun _ _ _ => 1) (fun _ _ _ => 1) 1
     (by norm_num) 0⟩

/-- Swapping the two kernel tensors transposes the unnormalized joint
kernel grid. -/
lemma joint_kernel_values_swap {B N NB : ℕ}
    (kernel_values1 kernel_values2 : Fin B → Fin N → Fin NB → ℝ)
    (b : Fin B) (i j : Fin NB) :
    joint_kernel_values kernel_values2 kernel_values1 b i j =
      joint_kernel_values kernel_values1 kernel_values2 b j i := by
  unfold joint_kernel_values
  exact Finset.sum_congr rfl fun n _ => mul_comm _ _

/-- Swapping the two kernel tensors preserves the total unnormalized mass
of each batch grid. -/
lemma joint_kernel_values_total_swap {B N NB : ℕ}
    (kernel_values1 kernel_values2 : Fin B → Fin N → Fin NB → ℝ) (b : Fin B) :
    (∑ i, ∑ j, joint_kernel_values kernel_values2 kernel_values1 b i j) =
      ∑ i, ∑ j, joint_kernel_values kernel_values1 kernel_values2 b i j := by
  rw [Finset.sum_comm]
  exact Finset.sum_congr rfl fun j _ =>
    Finset.sum_congr rfl fun i _ => joint_kernel_values_swap _ _ b i j

/-- C8.  For all input tensors x1 x2 of identical shape (B, D), a shared
bins tensor, and any bandwidth and epsilon, `histogram2d` with its inputs
swapped equals the batchwise transpose (over the last two axes) of the
original `histogram2d`. -/
theorem histogram2d_swap_transpose {B D NB : ℕ} (x1 x2 : Fin B → Fin D → ℝ)
    (bins : Fin NB → ℝ) (bandwidth epsilon : ℝ) (b : Fin B) (i j : Fin NB) :
    histogram2d x2 x1 bins bandwidth epsilon b i j =
      histogram2d x1 x2 bins bandwidth epsilon b j i := by
  unfold histogram2d joint_pdf
  rw [joint_kernel_values_swap, joint_kernel_values_total_swap]

/-- C9, counterexample.  The claim asserts that `histogram2d` forwards its
epsilon argument to the joint normalization.  With the single sample 0,
the single bin 0, bandwidth 1 and epsilon 1, the kernel weights are all
exp(0) = 1, so `histogram2d` (which calls `joint_pdf` with its default
epsilon 1e-10, line 159) yields 1/(1+1e-10), while the claimed composition
with epsilon 1 forwarded yields 1/(1+1) = 1/2. -/
theorem histogram2d_epsilon_not_forwarded :
    histogram2d (fun (_ : Fin 1) (_ : Fin 1) => (0:ℝ))
        (fun (_ : Fin 1) (_ : Fin 1) => (0:ℝ)) (fun (_ : Fin 1) => (0:ℝ)) 1 1 0 0 0 ≠
      joint_pdf
        (marginal_pdf (fun (_ : Fin 1) (_ : Fin 1) => (0:ℝ))
          (fun (_ : Fin 1) => (0:ℝ)) 1 1).2
        (marginal_pdf (fun (_ : Fin 1) (_ : Fin 1) => (0:ℝ))
          (fun (_ : Fin 1) => (0:ℝ)) 1 1).2 1 0 0 0 := by
  have harg : (-0.5 * (((0:ℝ) - 0) / 1) ^ 2) = 0 := by norm_num
  simp only [histogram2d, joint_pdf, joint_kernel_values, marginal_pdf,
    kernel_values, Fin.sum_univ_one, harg, Real.exp_zero]
  norm_num

/-- C9, amended.  `histogram2d(x1, x2, bins, bandwidth, epsilon)` equals
`joint_pdf(k1, k2, 1e-10)` where k1, k2 are the kernel tensors returned by
`marginal_pdf` — for ANY epsilon supplied to the marginal computations,
since the raw kernel weights do not depend on epsilon: the supplied
epsilon affects only the discarded marginal pdfs, and the joint
normalization always uses the default 1e-10 (line 159 of
src/paper/histogram.py omits the epsilon argument). -/
theorem histogram2d_eq_joint_with_default_epsilon {B D NB : ℕ}
    (x1 x2 : Fin B → Fin D → ℝ) (bins : Fin NB → ℝ)
    (bandwidth epsilon epsilon2 : ℝ) :
    histogram2d x1 x2 bins bandwidth epsilon =
      joint_pdf (marginal_pdf x1 bins bandwidth epsilon2).2
        (marginal_pdf x2 bins bandwidth epsilon2).2 (1e-10) :=
  rfl

/-!
Lattice abstraction (src/gpsr/modeling.py).

The cheetah transport elements are external collaborators; only their
settable configuration tensors matter to the claims, so an element's
state is embedded as the record of its (scalar or batched) parameter
values.  A batched tensor of batch index set ι is a function ι → ℝ; a
fresh scalar tensor is the constant function on ι = Unit.  An in-place
`.data` write that rebinds a parameter to a tensor of a new batch shape κ
is embedded as producing a record over κ.
-/

/-- The mutable configuration of the six-dimensional diagnostic lattice
`GPSR6DLattice` (src/gpsr/modeling.py lines 74-142), with the element
parameter tensors batched over the index set ι.  `dipole_e1` is written
only by the constructor (line 130) and by no setter, so it stays a
scalar. -/
structure GPSR6DLattice (ι : Type) where
  l_quad : ℝ
  l_tdc : ℝ
  f_tdc : ℝ
  phi_tdc : ℝ
  l_bend : ℝ
  l3 : ℝ
  d1_length : ℝ
  d2_length : ℝ
  quad_k1 : ι → ℝ
  tdc_voltage : ι → ℝ
  dipole_angle : ι → ℝ
  dipole_length : ι → ℝ
  dipole_e1 : ℝ
  dipole_e2 : ι → ℝ
  d3_length : ι → ℝ

/-- Embeds `GPSR6DLattice.__init__` (src/gpsr/modeling.py lines 75-142):
drift lengths are derived once from the design distances l1, l2, l3 and
the element half-lengths (lines 95, 98, 101); the dipole is initialized
with the dipole-on geometry (lines 124-132); the quadrupole strength and
TDC voltage start at 0 (lines 105, 114). -/
noncomputable def GPSR6DLattice.init
    (l_quad l_tdc f_tdc phi_tdc l_bend theta_on l1 l2 l3 : ℝ) :
    GPSR6DLattice Unit where
  l_quad := l_quad
  l_tdc := l_tdc
  f_tdc := f_tdc
  phi_tdc := phi_tdc
  l_bend := l_bend
  l3 := l3
  d1_length := l1 - l_quad / 2 - l_tdc / 2
  d2_length := l2 - l_tdc / 2 - l_bend / 2
  quad_k1 := fun _ => 0
  tdc_voltage := fun _ => 0
  dipole_angle := fun _ => 0
  dipole_length := fun _ => l_bend * theta_on / Real.sin theta_on
  dipole_e1 := 0
  dipole_e2 := fun _ => theta_on
  d3_length := fun _ => l3 - l_bend / 2 / Real.cos theta_on

/-- Embeds `GPSR6DLattice.set_lattice_parameters` (src/gpsr/modeling.py
lines 155-185) for a parameter tensor x batched over κ whose trailing
axis has size L.  The first indexing performed by the source is
`x[..., 2]` (line 171), which raises IndexError exactly when the trailing
axis has fewer than 3 entries; this is embedded as returning `none`.
Otherwise the quadrupole strength and TDC voltage are written from
trailing components 2 and 1 (lines 171-172), the dipole quantities are
derived from the curvature G = x[..., 0] (lines 175-180: bend_angle =
arcsin(l_bend * G), arc length bend_angle / G, exit edge e2 :=
bend_angle — e1 is not written), and the dipole-to-screen drift length is
recomputed from the bend angle (lines 183-185). -/
noncomputable def GPSR6DLattice.set_lattice_parameters {ι κ : Type} {L : ℕ}
    (s : GPSR6DLattice ι) (x : κ → Fin L → ℝ) : Option (GPSR6DLattice κ) :=
  if h : 2 < L then
    let G : κ → ℝ := fun k => x k ⟨0, by omega⟩
    let bend_angle : κ → ℝ := fun k => Real.arcsin (s.l_bend * G k)
    some
      { l_quad := s.l_quad
        l_tdc := s.l_tdc
        f_tdc := s.f_tdc
        phi_tdc := s.phi_tdc
        l_bend := s.l_bend
        l3 := s.l3
        d1_length := s.d1_length
        d2_length := s.d2_length
        quad_k1 := fun k => x k ⟨2, h⟩
        tdc_voltage := fun k => x k ⟨1, by omega⟩
        dipole_angle := bend_angle
        dipole_length := fun k => bend_angle k / G k
        dipole_e1 := s.dipole_e1
        dipole_e2 := bend_angle
        d3_length := fun k => s.l3 - s.l_bend / 2 / Real.cos (bend_angle k) }
  else none

/-- Embeds `GPSR6DLattice.track_and_observe` (src/gpsr/modeling.py lines
144-153).  The external cheetah Segment call `self.lattice(beam)` is a
parameter `segment` mapping the current lattice configuration and the
beam to a result indexed by the first batch dimension; the two external
screen diagnostics are parameters applied to the entries of that single
shared result at batch indices 0 and 1. -/
def GPSR6DLattice.track_and_observe {ι Beam SubBeam Obs1 Obs2 : Type}
    (s : GPSR6DLattice ι) (segment : GPSR6DLattice ι → Beam → ℕ → SubBeam)
    (screen_1 : SubBeam → Obs1) (screen_2 : SubBeam → Obs2)
    (beam : Beam) : Obs1 × Obs2 :=
  let final_beam := segment s beam
  (screen_1 (final_beam 0), screen_2 (final_beam 1))

/-- The mutable configuration of the quadrupole-scan lattice
`GPSRQuadScanLattice` (src/gpsr/modeling.py lines 56-71): a quadrupole of
fixed length and settable strength followed by a fixed drift. -/
structure GPSRQuadScanLattice (ι : Type) where
  l_quad : ℝ
  l_drift : ℝ
  quad_k1 : ι → ℝ

/-- Embeds `GPSRQuadScanLattice.__init__` (src/gpsr/modeling.py lines
57-62): quadrupole strength starts at 0. -/
def GPSRQuadScanLattice.init (l_quad l_drift : ℝ) : GPSRQuadScanLattice Unit where
  l_quad := l_quad
  l_drift := l_drift
  quad_k1 := fun _ => 0

/-- Embeds `GPSRQuadScanLattice.set_lattice_parameters` (src/gpsr/modeling.py
lines 70-71): `self.lattice.elements[0].k1.data = x` writes the tensor x
wholesale into the quadrupole strength; no validation is performed and no
exception can be raised, so the embedding is a total function. -/
def GPSRQuadScanLattice.set_lattice_parameters {ι κ : Type}
    (s : GPSRQuadScanLattice ι) (x : κ → ℝ) : GPSRQuadScanLattice κ where
  l_quad := s.l_quad
  l_drift := s.l_drift
  quad_k1 := x

/-- The capability contract of `GPSRLattice` (src/gpsr/modeling.py lines
22-37), as consumed by `GPSR`: a parameter setter (state-passing for the
in-place mutation) and a tracking/observation map. -/
structure GPSRLatticeOps (P S Beam Obs : Type) where
  set_lattice_parameters : S → P → S
  track_and_observe : S → Beam → Obs

/-- The `GPSR` reconstruction model (src/gpsr/modeling.py lines 40-53):
its deep-copied beam generator (a zero-argument callable, line 48) and its
deep-copied lattice state. -/
structure GPSR (S Beam : Type) where
  beam_generator : Unit → Beam
  lattice : S

/-- Embeds `GPSR.forward` (src/gpsr/modeling.py lines 46-53): generate a
fresh beam by calling the beam generator with no arguments, set the
lattice parameters (an in-place mutation, embedded as the updated model
state returned in the second component), and return the result of
`track_and_observe` on the fresh beam unchanged (first component). -/
def GPSR.forward {P S Beam Obs : Type} (ops : GPSRLatticeOps P S Beam Obs)
    (m : GPSR S Beam) (x : P) : Obs × GPSR S Beam :=
  let initial_beam := m.beam_generator ()
  let m2 : GPSR S Beam :=
    { beam_generator := m.beam_generator
      lattice := ops.set_lattice_parameters m.lattice x }
  (ops.track_and_observe m2.lattice initial_beam, m2)

/-- The concrete six-dimensional lattice of the C2 scenario: constructed
with l_bend = 0.5, then configured with dipole curvature G = 0.1 (the TDC
voltage and quadrupole strength are also 0.1; they do not enter the dipole
derivation). -/
noncomputable def sixDExample : GPSR6DLattice Unit :=
  ((GPSR6DLattice.init 1 1 1 1 0.5 1 1 1 1).set_lattice_parameters
    (fun (_ : Unit) (_ : Fin 3) => (0.1:ℝ))).getD
      (GPSR6DLattice.init 1 1 1 1 0.5 1 1 1 1)

/-- C2, counterexample.  The claim asserts that both the entrance and exit
edge angles are set equal to the bend angle, and that for G = 0.1 and
l_bend = 0.5 the written bend angle is 0.05004 to tolerance 1e-6.  In the
code (src/gpsr/modeling.py lines 178-180) only e2 is written — e1 keeps
its construction value 0, which differs from the bend angle
arcsin(0.05) > 0 — and arcsin(0.05) < 0.050039, so it is NOT within 1e-6
of 0.05004 (the true value is ≈ 0.050021). -/
theorem set_lattice_parameters_e1_and_value_counterexample :
    sixDExample.dipole_e1 ≠ sixDExample.dipole_angle () ∧
    ¬ |sixDExample.dipole_angle () - 0.05004| ≤ 1e-6 := by
  have h05 : (0.5:ℝ) * 0.1 = 0.05 := by norm_num
  have hval : sixDExample.dipole_angle () = Real.arcsin 0.05 := by
    simp only [sixDExample, GPSR6DLattice.set_lattice_parameters,
      GPSR6DLattice.init]
    norm_num
  have he1 : sixDExample.dipole_e1 = 0 := by
    simp only [sixDExample, GPSR6DLattice.set_lattice_parameters,
      GPSR6DLattice.init]
    norm_num
  have hpos : 0 < Real.arcsin 0.05 := Real.arcsin_pos.mpr (by norm_num)
  have hub : Real.arcsin 0.05 < 0.050039 := by
    have hy : (0.050039:ℝ) ∈ Set.Ioc (-(Real.pi / 2)) (Real.pi / 2) := by
      constructor
      · have := Real.pi_pos; linarith
      · have := Real.pi_gt_three; linarith
    rw [Real.arcsin_lt_iff_lt_sin' hy]
    have hcube := Real.sin_gt_sub_cube
      (by norm_num : (0:ℝ) < 0.050039) (by norm_num : (0.050039:ℝ) ≤ 1)
    nlinarith
  constructor
  · rw [hval, he1]
    exact ne_of_lt hpos
  · rw [hval, not_le]
    have hneg : Real.arcsin 0.05 - 0.05004 < 0 := by linarith
    rw [abs_of_neg hneg]
    linarith

/-- C2, amended.  For every parameter tensor x of shape (..., 3) passed to
`GPSR6DLattice.set_lattice_parameters`, the dipole quantities are derived
from the trailing-axis component 0 (the dipole curvature G) as bend_angle
= arcsin(l_bend * G) and arc_length = bend_angle / G, the EXIT edge angle
e2 is set equal to bend_angle while the ENTRANCE edge angle e1 is left at
its construction-time value, and for G = 0.1 with l_bend = 0.5 the written
bend angle is exactly arcsin(0.05), which lies strictly between 0.05 and
0.050039 (≈ 0.050021, not 0.05004 ± 1e-6), with arc length
arcsin(0.05) / 0.1. -/
theorem set_lattice_parameters_dipole_derivation {ι κ : Type}
    (s : GPSR6DLattice ι) (x : κ → Fin 3 → ℝ) :
    ((s.set_lattice_parameters x).elim False fun t =>
      ∀ k, t.dipole_angle k = Real.arcsin (s.l_bend * x k ⟨0, by omega⟩) ∧
        t.dipole_length k =
          Real.arcsin (s.l_bend * x k ⟨0, by omega⟩) / x k ⟨0, by omega⟩ ∧
        t.dipole_e2 k = Real.arcsin (s.l_bend * x k ⟨0, by omega⟩) ∧
        t.dipole_e1 = s.dipole_e1) ∧
    sixDExample.dipole_angle () = Real.arcsin 0.05 ∧
    sixDExample.dipole_length () = Real.arcsin 0.05 / 0.1 ∧
    0.05 < Real.arcsin 0.05 ∧ Real.arcsin 0.05 < 0.050039 := by
  have h05 : (0.5:ℝ) * 0.1 = 0.05 := by norm_num
  refine ⟨?_, ?_, ?_, ?_, ?_⟩
  · rw [GPSR6DLattice.set_lattice_parameters, dif_pos (by omega : 2 < 3)]
    exact fun k => ⟨rfl, rfl, rfl, rfl⟩
  · simp only [sixDExample, GPSR6DLattice.set_lattice_parameters,
      GPSR6DLattice.init]
    norm_num
  · simp only [sixDExample, GPSR6DLattice.set_lattice_parameters,
      GPSR6DLattice.init]
    norm_num
  · have hx : (0.05:ℝ) ∈ Set.Ico (-(Real.pi / 2)) (Real.pi / 2) := by
      constructor
      · have := Real.pi_pos; linarith
      · have := Real.pi_gt_three; linarith
    rw [Real.lt_arcsin_iff_sin_lt' hx]
    exact Real.sin_lt (by norm_num)
  · have hy : (0.050039:ℝ) ∈ Set.Ioc (-(Real.pi / 2)) (Real.pi / 2) := by
      constructor
      · have := Real.pi_pos; linarith
      · have := Real.pi_gt_three; linarith
    rw [Real.arcsin_lt_iff_lt_sin' hy]
    have hcube := Real.sin_gt_sub_cube
      (by norm_num : (0:ℝ) < 0.050039) (by norm_num : (0.050039:ℝ) ≤ 1)
    nlinarith

/-- C7.  Every call to `GPSR6DLattice.set_lattice_parameters` recomputes
the length of the drift immediately downstream of the dipole as
l3 - (l_bend / 2) / cos(bend_angle) (src/gpsr/modeling.py lines 183-185),
and leaves the other element lengths unchanged: the quadrupole and TDC
lengths and the two upstream drift lengths, the latter fixed at
construction from the design distances and element half-lengths
(lines 95 and 98). -/
theorem set_lattice_parameters_drift_lengths {ι κ : Type}
    (s : GPSR6DLattice ι) (x : κ → Fin 3 → ℝ)
    (l_quad l_tdc f_tdc phi_tdc l_bend theta_on l1 l2 l3 : ℝ) :
    ((s.set_lattice_parameters x).elim False fun t =>
      (∀ k, t.d3_length k = s.l3 - s.l_bend / 2 /
          Real.cos (Real.arcsin (s.l_bend * x k ⟨0, by omega⟩))) ∧
      t.d1_length = s.d1_length ∧ t.d2_length = s.d2_length ∧
      t.l_quad = s.l_quad ∧ t.l_tdc = s.l_tdc) ∧
    (GPSR6DLattice.init l_quad l_tdc f_tdc phi_tdc l_bend theta_on
        l1 l2 l3).d1_length = l1 - l_quad / 2 - l_tdc / 2 ∧
    (GPSR6DLattice.init l_quad l_tdc f_tdc phi_tdc l_bend theta_on
        l1 l2 l3).d2_length = l2 - l_tdc / 2 - l_bend / 2 := by
  refine ⟨?_, rfl, rfl⟩
  rw [GPSR6DLattice.set_lattice_parameters, dif_pos (by omega : 2 < 3)]
  exact ⟨fun k => rfl, rfl, rfl, rfl, rfl⟩

/-- C4.  `GPSR6DLattice.track_and_observe` obtains its two observations by
evaluating the first screen on batch index 0 and the second screen on
batch index 1 of ONE shared transport result: the output equals the pair
of screen readings of `segment s beam`, and any other transport function
agreeing with `segment` on this single invocation yields the same output
(no second, screen-specific tracking takes place). -/
theorem track_and_observe_shared_transport {ι Beam SubBeam Obs1 Obs2 : Type}
    (s : GPSR6DLattice ι)
    (segment segment2 : GPSR6DLattice ι → Beam → ℕ → SubBeam)
    (screen_1 : SubBeam → Obs1) (screen_2 : SubBeam → Obs2) (beam : Beam)
    (h : segment s beam = segment2 s beam) :
    s.track_and_observe segment screen_1 screen_2 beam =
      (screen_1 (segment s beam 0), screen_2 (segment s beam 1)) ∧
    s.track_and_observe segment screen_1 screen_2 beam =
      s.track_and_observe segment2 screen_1 screen_2 beam := by
  refine ⟨rfl, ?_⟩
  unfold GPSR6DLattice.track_and_observe
  rw [h]

/-- C4, witness for `track_and_observe_shared_transport` with the
identity-like transport over natural-number beams. -/
theorem track_and_observe_shared_transport_witness :
    ((fun (_ : GPSR6DLattice Unit) (_ : Unit) (n : ℕ) => n)
        (GPSR6DLattice.init 1 1 1 1 1 1 1 1 1) () =
      (fun (_ : GPSR6DLattice Unit) (_ : Unit) (n : ℕ) => n)
        (GPSR6DLattice.init 1 1 1 1 1 1 1 1 1) ()) ∧
    ((GPSR6DLattice.init 1 1 1 1 1 1 1 1 1).track_and_observe
        (fun _ _ n => n) (fun n => n) (fun n => n + 1) () = (0, 2) ∧
     (GPSR6DLattice.init 1 1 1 1 1 1 1 1 1).track_and_observe
        (fun _ _ n => n) (fun n => n) (fun n => n + 1) () =
      (GPSR6DLattice.init 1 1 1 1 1 1 1 1 1).track_and_observe
        (fun _ _ n => n) (fun n => n) (fun n => n + 1) ()) :=
  ⟨rfl, track_and_observe_shared_transport
    (GPSR6DLattice.init 1 1 1 1 1 1 1 1 1)
    (fun _ _ n => n) (fun _ _ n => n) (fun n => n) (fun n => n + 1) () rfl⟩

/-- C6.  `GPSR.forward` returns exactly the result of `track_and_observe`
applied to the lattice state updated by `set_lattice_parameters x` and to
the beam obtained by calling the beam generator with no arguments; the
second component is the model after the in-place parameter write, whose
beam generator is untouched. -/
theorem GPSR_forward_composition {P S Beam Obs : Type}
    (ops : GPSRLatticeOps P S Beam Obs) (m : GPSR S Beam) (x : P) :
    (GPSR.forward ops m x).1 =
      ops.track_and_observe (ops.set_lattice_parameters m.lattice x)
        (m.beam_generator ()) ∧
    (GPSR.forward ops m x).2.lattice = ops.set_lattice_parameters m.lattice x ∧
    (GPSR.forward ops m x).2.beam_generator = m.beam_generator :=
  ⟨rfl, rfl, rfl⟩

/-- C10.  Neither lattice variant validates the declared parameter count:
the quad-scan setter is a total function writing x wholesale into the
quadrupole strength (never raises, for any tensor); the six-dimensional
setter succeeds for every tensor whose trailing axis has size at least 3
and its result depends only on the first three trailing-axis components
(any further entries are silently ignored). -/
theorem set_lattice_parameters_no_validation :
    (∀ {ι κ : Type} (s : GPSRQuadScanLattice ι) (x : κ → ℝ),
      (s.set_lattice_parameters x).quad_k1 = x ∧
      (s.set_lattice_parameters x).l_quad = s.l_quad ∧
      (s.set_lattice_parameters x).l_drift = s.l_drift) ∧
    (∀ {ι κ : Type} {L : ℕ} (s : GPSR6DLattice ι) (x : κ → Fin L → ℝ),
      3 ≤ L → (s.set_lattice_parameters x).isSome) ∧
    (∀ {ι κ : Type} {L : ℕ} (s : GPSR6DLattice ι) (x y : κ → Fin L → ℝ),
      (∀ k (i : Fin L), (i : ℕ) < 3 → x k i = y k i) →
      s.set_lattice_parameters x = s.set_lattice_parameters y) := by
  refine ⟨fun s x => ⟨rfl, rfl, rfl⟩, ?_, ?_⟩
  · intro ι κ L s x hL
    rw [GPSR6DLattice.set_lattice_parameters, dif_pos (by omega : 2 < L)]
    rfl
  · intro ι κ L s x y hxy
    unfold GPSR6DLattice.set_lattice_parameters
    by_cases h : 2 < L
    · rw [dif_pos h, dif_pos h]
      simp only [Option.some.injEq, GPSR6DLattice.mk.injEq]
      refine ⟨trivial, trivial, trivial, trivial, trivial, trivial, trivial,
        trivial, ?_, ?_, ?_, ?_, trivial, ?_, ?_⟩
      · exact funext fun k => hxy k _ (by norm_num)
      · exact funext fun k => hxy k _ (by norm_num)
      · exact funext fun k => by rw [hxy k _ (by norm_num : ((⟨0, by omega⟩ : Fin L) : ℕ) < 3)]
      · exact funext fun k => by
          rw [hxy k _ (by norm_num : ((⟨0, by omega⟩ : Fin L) : ℕ) < 3)]
      · exact funext fun k => by
          rw [hxy k _ (by norm_num : ((⟨0, by omega⟩ : Fin L) : ℕ) < 3)]
      · exact funext fun k => by
          rw [hxy k _ (by norm_num : ((⟨0, by omega⟩ : Fin L) : ℕ) < 3)]
    · rw [dif_neg h, dif_neg h]

/-- C10, witness for `set_lattice_parameters_no_validation`: the quad-scan
setter result at the constant tensor 5; the six-dimensional setter at a
trailing axis of size exactly 3; the trailing-ignorance congruence at two
identical tensors. -/
theorem set_lattice_parameters_no_validation_witness :
    (((GPSRQuadScanLattice.init 1 2).set_lattice_parameters
        (fun (_ : Unit) => (5:ℝ))).quad_k1 = fun (_ : Unit) => (5:ℝ)) ∧
    (3 ≤ 3) ∧
    ((GPSR6DLattice.init 1 1 1 1 1 1 1 1 1).set_lattice_parameters
        (fun (_ : Unit) (_ : Fin 3) => (0:ℝ))).isSome ∧
    (∀ (k : Unit) (i : Fin 3), (i : ℕ) < 3 →
      (fun (_ : Unit) (_ : Fin 3) => (0:ℝ)) k i =
        (fun (_ : Unit) (_ : Fin 3) => (0:ℝ)) k i) ∧
    ((GPSR6DLattice.init 1 1 1 1 1 1 1 1 1).set_lattice_parameters
        (fun (_ : Unit) (_ : Fin 3) => (0:ℝ)) =
      (GPSR6DLattice.init 1 1 1 1 1 1 1 1 1).set_lattice_parameters
        (fun (_ : Unit) (_ : Fin 3) => (0:ℝ))) :=
  ⟨(set_lattice_parameters_no_validation.1 (GPSRQuadScanLattice.init 1 2)
      (fun _ => 5)).1,
   by norm_num,
   set_lattice_parameters_no_validation.2.1
     (GPSR6DLattice.init 1 1 1 1 1 1 1 1 1)
     (fun (_ : Unit) (_ : Fin 3) => (0:ℝ)) (by norm_num),
   fun k i _ => rfl,
   set_lattice_parameters_no_validation.2.2
     (GPSR6DLattice.init 1 1 1 1 1 1 1 1 1)
     (fun (_ : Unit) (_ : Fin 3) => (0:ℝ))
     (fun (_ : Unit) (_ : Fin 3) => (0:ℝ)) (fun k i _ => rfl)⟩

/-!
Shape-level semantics for the six-dimensional scan pipeline (claim C5).
Tensor shapes are lists of axis sizes; only the shape flow of
`set_lattice_parameters` followed by `track_and_observe` is modelled.
-/

/-- Shape behaviour of `GPSR6DLattice.set_lattice_parameters`
(src/gpsr/modeling.py lines 155-185): the first indexing `x[..., 2]`
(line 171) raises IndexError exactly when the trailing axis has fewer than
3 entries; otherwise every written element parameter carries the batch
shape of x, i.e. its shape with the trailing axis removed. -/
def set_lattice_parameters_shape : List ℕ → Option (List ℕ)
  | [] => none
  | [c] => if 2 < c then some [] else none
  | a :: b :: rest =>
      (set_lattice_parameters_shape (b :: rest)).map (a :: ·)

/-- Modelled from the spec: the cheetah Segment transport and the Screen
diagnostics are external collaborators absent from src/.  Per the spec's
Transport Engine boundary, transport is a batched, shape-compatible map,
so `final_beam = self.lattice(beam)` carries the element-parameter batch
shape; `final_beam[0]` and `final_beam[1]` (src/gpsr/modeling.py lines
150-151) index the first batch axis — raising IndexError unless that axis
has size at least 2 — and drop it; per the Diagnostic/Screen boundary each
screen maps the remaining batch of particles to observation tensors whose
trailing axes are the screen's own image dimensions. -/
def track_and_observe_shape (batchShape screen1Dims screen2Dims : List ℕ) :
    Option (List ℕ × List ℕ) :=
  match batchShape with
  | [] => none
  | m :: rest =>
      if 1 < m then some (rest ++ screen1Dims, rest ++ screen2Dims) else none

/-- Shape behaviour of `set_lattice_parameters` followed by
`track_and_observe` on a parameter tensor of shape `xshape`. -/
def set_and_track_shape (xshape screen1Dims screen2Dims : List ℕ) :
    Option (List ℕ × List ℕ) :=
  (set_lattice_parameters_shape xshape).bind fun bs =>
    track_and_observe_shape bs screen1Dims screen2Dims

/-- C5, counterexample.  The claim asserts that for a parameter tensor of
shape (M, N, K, 3) the two observation tensors have leading (non-screen)
shape (M, N, K), and that the pipeline never raises.  At (M, N, K) =
(2, 3, 4) with screens of image shape [100, 100] and [150, 150], each
observation has leading shape (N, K) = (3, 4) — the first batch axis is
consumed by the two indexed screen reads — which differs from (2, 3, 4);
and at M = 1 the read `final_beam[1]` raises. -/
theorem six_d_observation_shape_counterexample :
    set_and_track_shape [2, 3, 4, 3] [100, 100] [150, 150] =
      some ([3, 4, 100, 100], [3, 4, 150, 150]) ∧
    ([3, 4, 100, 100] : List ℕ) ≠ [2, 3, 4] ++ [100, 100] ∧
    set_and_track_shape [1, 3, 4, 3] [100, 100] [150, 150] = none := by
  refine ⟨rfl, by decide, rfl⟩

/-- C5, amended.  For every parameter tensor of shape (M, N, K, 3) with
M ≥ 2 (the first axis indexes the dipole states read by the two screens),
`set_lattice_parameters` followed by `track_and_observe` does not raise
and returns two observation tensors whose leading (non-screen) shape is
(N, K) — the input batch shape with the first axis consumed by the two
indexed reads; the pair of observations jointly restores a leading size-2
axis, matching (M, N, K) exactly when M = 2.  (The dipole-curvature values
do not influence whether an exception occurs.) -/
theorem six_d_observation_shapes (M N K : ℕ)
    (screen1Dims screen2Dims : List ℕ) (hM : 2 ≤ M) :
    set_and_track_shape [M, N, K, 3] screen1Dims screen2Dims =
      some (N :: K :: screen1Dims, N :: K :: screen2Dims) := by
  simp only [set_and_track_shape, set_lattice_parameters_shape]
  norm_num [track_and_observe_shape]
  omega

/-- C5, witness for `six_d_observation_shapes` at (M, N, K) = (2, 5, 7)
with screen image shapes [9] and [11]. -/
theorem six_d_observation_shapes_witness :
    2 ≤ 2 ∧
    set_and_track_shape [2, 5, 7, 3] [9] [11] =
      some ([5, 7, 9], [5, 7, 11]) :=
  ⟨by norm_num, six_d_observation_shapes 2 5 7 [9] [11] (by norm_num)⟩

end PhaseSpaceReconstruction
